import Mathlib

/-!
Verification development for the "Common Grounds" backend
(`backend/src/services/auth.service.ts`, `backend/src/services/messages.service.ts`
(shipped in `uvasis.service.ts`), `backend/src/services/friends.service.ts`,
`backend/src/lib/crypto.ts`, `backend/src/controllers/messages.controller.ts`).

The relational store is embedded as lists of rows; each service operation is a
pure function from a store state (plus the request-scoped values the runtime
supplies: the current time `now` in milliseconds, freshly generated ids and
tokens, and the results of the external `jsonwebtoken` collaborator) to a pair
of an `Except`-result — mirroring the `throw` sites of the original — and the
post state.  SHA-256 is implemented concretely (and pinned against the FIPS
180-4 test vectors), so the hash-keyed lookups of the source are modelled
exactly.  JavaScript string primitives used by the source
(`endsWith`, `toLowerCase`, `trim`, single-character global `replace`) are
given executable models over `List Char`.
-/

/-! ## SHA-256 (`crypto.sha256`, Node's `createHash('sha256')...digest('hex')`) -/

/-- Reduce a natural number to a 32-bit word. -/
def w32 (n : Nat) : Nat := n % 4294967296

/-- Right rotation of a 32-bit word by `k` bits. -/
def rotr32 (k x : Nat) : Nat := w32 ((x >>> k) ||| (x <<< (32 - k)))

/-- Bitwise complement within 32 bits. -/
def not32 (x : Nat) : Nat := x ^^^ 0xFFFFFFFF

/-- SHA-256 big sigma-0. -/
def bigSigma0 (x : Nat) : Nat := rotr32 2 x ^^^ rotr32 13 x ^^^ rotr32 22 x

/-- SHA-256 big sigma-1. -/
def bigSigma1 (x : Nat) : Nat := rotr32 6 x ^^^ rotr32 11 x ^^^ rotr32 25 x

/-- SHA-256 small sigma-0. -/
def smallSigma0 (x : Nat) : Nat := rotr32 7 x ^^^ rotr32 18 x ^^^ (x >>> 3)

/-- SHA-256 small sigma-1. -/
def smallSigma1 (x : Nat) : Nat := rotr32 17 x ^^^ rotr32 19 x ^^^ (x >>> 10)

/-- The 64 SHA-256 round constants. -/
def shaK : List Nat :=
  [0x428A2F98, 0x71374491, 0xB5C0FBCF, 0xE9B5DBA5,
   0x3956C25B, 0x59F111F1, 0x923F82A4, 0xAB1C5ED5,
   0xD807AA98, 0x12835B01, 0x243185BE, 0x550C7DC3,
   0x72BE5D74, 0x80DEB1FE, 0x9BDC06A7, 0xC19BF174,
   0xE49B69C1, 0xEFBE4786, 0x0FC19DC6, 0x240CA1CC,
   0x2DE92C6F, 0x4A7484AA, 0x5CB0A9DC, 0x76F988DA,
   0x983E5152, 0xA831C66D, 0xB00327C8, 0xBF597FC7,
   0xC6E00BF3, 0xD5A79147, 0x06CA6351, 0x14292967,
   0x27B70A85, 0x2E1B2138, 0x4D2C6DFC, 0x53380D13,
   0x650A7354, 0x766A0ABB, 0x81C2C92E, 0x92722C85,
   0xA2BFE8A1, 0xA81A664B, 0xC24B8B70, 0xC76C51A3,
   0xD192E819, 0xD6990624, 0xF40E3585, 0x106AA070,
   0x19A4C116, 0x1E376C08, 0x2748774C, 0x34B0BCB5,
   0x391C0CB3, 0x4ED8AA4A, 0x5B9CCA4F, 0x682E6FF3,
   0x748F82EE, 0x78A5636F, 0x84C87814, 0x8CC70208,
   0x90BEFFFA, 0xA4506CEB, 0xBEF9A3F7, 0xC67178F2]

/-- The SHA-256 initial hash value. -/
def shaH0 : List Nat :=
  [0x6A09E667, 0xBB67AE85, 0x3C6EF372, 0xA54FF53A,
   0x510E527F, 0x9B05688C, 0x1F83D9AB, 0x5BE0CD19]

/-- UTF-8 encoding of one character, as byte values below 256. -/
def utf8CharBytes (c : Char) : List Nat :=
  let v := c.toNat
  if v < 0x80 then [v]
  else if v < 0x800 then [0xC0 ||| (v >>> 6), 0x80 ||| (v &&& 0x3F)]
  else if v < 0x10000 then
    [0xE0 ||| (v >>> 12), 0x80 ||| ((v >>> 6) &&& 0x3F), 0x80 ||| (v &&& 0x3F)]
  else
    [0xF0 ||| (v >>> 18), 0x80 ||| ((v >>> 12) &&& 0x3F),
     0x80 ||| ((v >>> 6) &&& 0x3F), 0x80 ||| (v &&& 0x3F)]

/-- UTF-8 encoding of a string (Node hashes the UTF-8 bytes of its input). -/
def utf8Bytes (s : String) : List Nat := s.data.flatMap utf8CharBytes

/-- SHA-256 padding: append `0x80`, zeros, and the 8-byte big-endian bit length,
reaching a multiple of 64 bytes. -/
def shaPad (msg : List Nat) : List Nat :=
  let len := msg.length
  let zeros := (64 - ((len + 9) % 64)) % 64
  let bitLen := len * 8
  msg ++ [0x80] ++ List.replicate zeros 0 ++
    (List.range 8).map (fun i => (bitLen >>> ((7 - i) * 8)) &&& 0xFF)

/-- Big-endian 32-bit word number `i` of a byte list. -/
def word32At (bytes : List Nat) (i : Nat) : Nat :=
  (bytes.getD (4 * i) 0 <<< 24) ||| (bytes.getD (4 * i + 1) 0 <<< 16) |||
  (bytes.getD (4 * i + 2) 0 <<< 8) ||| bytes.getD (4 * i + 3) 0

/-- SHA-256 message schedule: 64 words from one 64-byte block. -/
def shaSchedule (block : List Nat) : List Nat :=
  let ws0 := (List.range 16).map (word32At block)
  (List.range 48).foldl
    (fun w i =>
      w ++ [w32 (smallSigma1 (w.getD (i + 14) 0) + w.getD (i + 9) 0 +
                 smallSigma0 (w.getD (i + 1) 0) + w.getD i 0)])
    ws0

/-- One SHA-256 compression round on the working state `[a,b,c,d,e,f,g,h]`. -/
def shaRound (st : List Nat) (kw : Nat × Nat) : List Nat :=
  match st with
  | [a, b, c, d, e, f, g, h] =>
    let s1 := bigSigma1 e
    let ch := (e &&& f) ^^^ (not32 e &&& g)
    let temp1 := w32 (h + s1 + ch + kw.1 + kw.2)
    let s0 := bigSigma0 a
    let maj := (a &&& b) ^^^ (a &&& c) ^^^ (b &&& c)
    let temp2 := w32 (s0 + maj)
    [w32 (temp1 + temp2), a, b, c, w32 (d + temp1), e, f, g]
  | other => other

/-- SHA-256 compression of one 64-byte block into the running hash. -/
def shaCompress (hs : List Nat) (block : List Nat) : List Nat :=
  let w := shaSchedule block
  let st := (shaK.zip w).foldl shaRound hs
  (hs.zip st).map (fun p => w32 (p.1 + p.2))

/-- SHA-256 digest of a byte list, as eight 32-bit words. -/
def sha256Words (msg : List Nat) : List Nat :=
  let padded := shaPad msg
  let nBlocks := padded.length / 64
  (List.range nBlocks).foldl
    (fun hs i => shaCompress hs ((padded.drop (64 * i)).take 64)) shaH0

/-- Lower-case hexadecimal digit. -/
def hexDigitChar (n : Nat) : Char :=
  if n < 10 then Char.ofNat (48 + n) else Char.ofNat (87 + n)

/-- Eight-digit lower-case hexadecimal rendering of a 32-bit word. -/
def toHex8 (n : Nat) : String :=
  String.mk ((List.range 8).map (fun i => hexDigitChar ((n >>> ((7 - i) * 4)) &&& 0xF)))

/-- Model of `crypto.sha256(data)`: lower-case hex digest of the UTF-8 bytes. -/
def sha256Hex (s : String) : String :=
  String.join ((sha256Words (utf8Bytes s)).map toHex8)

/-! ## JavaScript string primitives used by the services -/

/-- Whitespace recognised by JavaScript's `String.prototype.trim` (the
characters that can occur in this code base's inputs). -/
def isJsWhitespace (c : Char) : Bool :=
  c = ' ' || c = '\t' || c = '\n' || c = '\r' || c = '\x0b' || c = '\x0c'

/-- Model of JavaScript `s.trim()`: strip leading and trailing whitespace. -/
def jsTrim (s : String) : String :=
  String.mk (((s.data.dropWhile isJsWhitespace).reverse.dropWhile isJsWhitespace).reverse)

/-- Model of JavaScript `s.endsWith(suffix)`. -/
def jsEndsWith (s suf : String) : Bool :=
  decide (suf.data.length ≤ s.data.length) &&
    decide (s.data.drop (s.data.length - suf.data.length) = suf.data)

/-- Model of one character of JavaScript `s.toLowerCase()` (ASCII range, the
only characters relevant to email addresses here). -/
def jsToLowerChar (c : Char) : Char :=
  if 65 ≤ c.toNat ∧ c.toNat ≤ 90 then Char.ofNat (c.toNat + 32) else c

/-- Model of JavaScript `s.toLowerCase()`. -/
def jsToLower (s : String) : String := String.mk (s.data.map jsToLowerChar)

/-- Model of JavaScript `s.replace(/c/g, r)` for a single-character pattern
`c`: every occurrence of `c` is replaced by `r`. -/
def jsReplaceAll (s : String) (c : Char) (r : String) : String :=
  String.mk (s.data.flatMap (fun x => if x = c then r.data else [x]))

/-- JavaScript `s.length` (all content here is ASCII, so code-unit count and
code-point count agree). -/
def jsLength (s : String) : Nat := s.data.length

/-- JavaScript `s.substring(0, n)`. -/
def jsTake (s : String) (n : Nat) : String := String.mk (s.data.take n)

/-! ## `crypto.generateAnonymousId` (`backend/src/lib/crypto.ts`) -/

/-- Model of `crypto.generateAnonymousId(userId, classId)`:
`` `Anon_${sha256(`${userId}:${classId}`).substring(0, 6)}` ``. -/
def generateAnonymousId (userId classId : String) : String :=
  let hash := sha256Hex (userId ++ ":" ++ classId)
  "Anon_" ++ jsTake hash 6

/-! ## Data model (rows of the Prisma schema used by the verified flows) -/

/-- A `users` row (the fields touched by the authentication flow). -/
structure User where
  id : String
  email : String
  emailVerified : Bool
deriving DecidableEq, Repr

/-- A `magic_links` row.  `tokenHash` carries a `@unique` constraint in the
schema; `expiresAt` is in milliseconds since the epoch. -/
structure MagicLink where
  id : String
  userId : String
  tokenHash : String
  expiresAt : Nat
  used : Bool
deriving DecidableEq, Repr

/-- A `sessions` row.  `tokenHash` carries a `@unique` constraint. -/
structure Session where
  id : String
  userId : String
  tokenHash : String
  expiresAt : Nat
  createdAt : Nat
  lastUsedAt : Nat
deriving DecidableEq, Repr

/-- The relational state seen by `authService`. -/
structure AuthDb where
  users : List User
  magicLinks : List MagicLink
  sessions : List Session
deriving DecidableEq, Repr

/-- The `FriendshipStatus` enum of the schema. -/
inductive FriendshipStatus where
  | PENDING
  | ACCEPTED
  | REJECTED
  | BLOCKED
deriving DecidableEq, Repr

/-- A `friendships` row.  The schema declares `@@unique([userId1, userId2])`
(ordered pair only). -/
structure Friendship where
  id : String
  userId1 : String
  userId2 : String
  status : FriendshipStatus
deriving DecidableEq, Repr

/-- A `user_classes` enrollment row, primary key `(userId, classId)`. -/
structure UserClass where
  userId : String
  classId : String
deriving DecidableEq, Repr

/-- A `class_messages` row. -/
structure ClassMessage where
  id : String
  classId : String
  userId : String
  anonymousIdentifier : String
  content : String
  parentMessageId : Option String
  createdAt : Nat
  flaggedCount : Nat
  hidden : Bool
deriving DecidableEq, Repr

/-- The relational state seen by `messagesService`. -/
structure MsgDb where
  userClasses : List UserClass
  classMessages : List ClassMessage
deriving DecidableEq, Repr

/-- The distinct `throw new Error(...)` sites of `authService`, named after the
error kinds the specification assigns to them.  The three magic-link causes
(`invalidLink`, `linkExpired`, `linkUsed`) are the spec's single
`InvalidTokenError` kind; `sessionExpired` is the internal `'Session expired'`
throw of `validateToken`, and `invalidToken` the `'Invalid token'` rethrow of
its catch-all. -/
inductive AuthError where
  | invalidDomain
  | invalidLink
  | linkExpired
  | linkUsed
  | sessionExpired
  | invalidToken
deriving DecidableEq, Repr

/-- The spec's `InvalidTokenError` kind: the three magic-link failure causes
collapsed into one externally visible error. -/
def isInvalidTokenError (e : AuthError) : Bool :=
  e = AuthError.invalidLink || e = AuthError.linkExpired || e = AuthError.linkUsed

/-- The `throw` sites of `friendsService.sendFriendRequest`, plus the database
unique-constraint rejection on the ordered pair `(userId1, userId2)`. -/
inductive FriendError where
  | selfRequest
  | alreadyFriends
  | requestPending
  | uniqueViolation
deriving DecidableEq, Repr

/-- The `throw` sites of `messagesService` and the controller's 403 for
listing while not enrolled.  `invalidContent` is the spec's
`ValidationError`; `notEnrolled` its `NotEnrolledError`; `notFound` its
`NotFoundError`. -/
inductive MessageError where
  | notEnrolled
  | invalidContent
  | notFound
  | viewNotEnrolled
deriving DecidableEq, Repr

/-- The identity claims `jwtUtils.sign` embeds and `jwtUtils.verify` returns. -/
structure JwtClaims where
  userId : String
  email : String
deriving DecidableEq, Repr

/-- Decidable equality for `Except` results (component-wise). -/
def exceptToSum : Except ε α → ε ⊕ α
  | .error e => Sum.inl e
  | .ok a => Sum.inr a

instance [DecidableEq ε] [DecidableEq α] : DecidableEq (Except ε α) := fun a b =>
  decidable_of_iff (exceptToSum a = exceptToSum b)
    (by cases a <;> cases b <;> simp [exceptToSum])

/-! ## `authService` (`backend/src/services/auth.service.ts`)

Each operation takes the request-scoped inputs the runtime supplies —
the clock value `now` (all `new Date()` / `Date.now()` reads of one request),
database-generated UUIDs for created rows, the random token from
`crypto.generateToken`, and the signed token from the external `jsonwebtoken`
collaborator — and returns the thrown-or-returned result together with the
post state. -/

/-- Model of `authService.requestMagicLink(email)`.  `newUserId` and `linkId`
are the UUIDs the database would mint, `token` the value of
`crypto.generateToken(32)`. -/
def requestMagicLink (st : AuthDb) (email : String)
    (newUserId linkId token : String) (now : Nat) :
    (Except AuthError Unit) × AuthDb :=
  if !(jsEndsWith email "@virginia.edu") then (.error .invalidDomain, st)
  else
    let normalizedEmail := jsTrim (jsToLower email)
    let found := st.users.find? (fun u => u.email == normalizedEmail)
    let user : User :=
      match found with
      | some u => u
      | none => ⟨newUserId, normalizedEmail, false⟩
    let st1 : AuthDb :=
      match found with
      | some _ => st
      | none => { st with users := st.users ++ [user] }
    let tokenHash := sha256Hex token
    let newLink : MagicLink := ⟨linkId, user.id, tokenHash, now + 900000, false⟩
    (.ok (), { st1 with magicLinks := st1.magicLinks ++ [newLink] })

/-- The read half of `authService.verifyMagicLink`: the `findUnique` by
`sha256(token)` and the absent / expired / used checks, in source order. -/
def verifyMagicLinkRead (st : AuthDb) (token : String) (now : Nat) :
    Except AuthError MagicLink :=
  let tokenHash := sha256Hex token
  match st.magicLinks.find? (fun l => l.tokenHash == tokenHash) with
  | none => .error .invalidLink
  | some magicLink =>
    if magicLink.expiresAt < now then .error .linkExpired
    else if magicLink.used then .error .linkUsed
    else .ok magicLink

/-- The write half of `authService.verifyMagicLink`: mark the link used
(an unconditional `update` by id), mark the owner verified, and create the
7-day session row for `sha256(jwtToken)`. -/
def verifyMagicLinkWrite (st : AuthDb) (magicLink : MagicLink)
    (jwtToken sessionId : String) (now : Nat) : AuthDb :=
  let newLinks := st.magicLinks.map
    (fun l => if l.id == magicLink.id then { l with used := true } else l)
  let st1 := { st with magicLinks := newLinks }
  let newUsers := st1.users.map
    (fun u => if u.id == magicLink.userId then { u with emailVerified := true } else u)
  let st2 := { st1 with users := newUsers }
  let newSession : Session :=
    ⟨sessionId, magicLink.userId, sha256Hex jwtToken, now + 604800000, now, now⟩
  { st2 with sessions := st2.sessions ++ [newSession] }

/-- Model of `authService.verifyMagicLink(token)`: the read half followed by
the write half; on success it returns the owning user's id and the signed
session credential.  `jwtToken` is the output of the external
`jwtUtils.sign`, `sessionId` the UUID of the created session row. -/
def verifyMagicLink (st : AuthDb) (token jwtToken sessionId : String) (now : Nat) :
    (Except AuthError (String × String)) × AuthDb :=
  match verifyMagicLinkRead st token now with
  | .error e => (.error e, st)
  | .ok magicLink =>
    (.ok (magicLink.userId, jwtToken), verifyMagicLinkWrite st magicLink jwtToken sessionId now)

/-- The interleaving of two concurrent `verifyMagicLink(token)` requests in
which both `findUnique` reads run before either request's writes — each
`await`ed database call of the source is one atomic step, so this schedule is
admitted by the execution model.  Returns both requests' results and the final
state. -/
def verifyTwoInterleaved (st : AuthDb) (token : String)
    (jwt1 sid1 jwt2 sid2 : String) (now : Nat) :
    (Except AuthError (String × String)) × (Except AuthError (String × String)) × AuthDb :=
  match verifyMagicLinkRead st token now with
  | .error e1 =>
    let r2 := verifyMagicLink st token jwt2 sid2 now
    (.error e1, r2.1, r2.2)
  | .ok link1 =>
    match verifyMagicLinkRead st token now with
    | .error e2 =>
      (.ok (link1.userId, jwt1), .error e2, verifyMagicLinkWrite st link1 jwt1 sid1 now)
    | .ok link2 =>
      let st1 := verifyMagicLinkWrite st link1 jwt1 sid1 now
      let st2 := verifyMagicLinkWrite st1 link2 jwt2 sid2 now
      (.ok (link1.userId, jwt1), .ok (link2.userId, jwt2), st2)

/-- The body of `authService.validateToken`'s `try` block: `jwtUtils.verify`
(modelled by the collaborator function `jwtVerify`, `none` meaning the
library threw), the session lookup by `sha256(token)`, the liveness check,
and the `lastUsedAt` refresh. -/
def validateTokenTry (jwtVerify : String → Option JwtClaims)
    (st : AuthDb) (token : String) (now : Nat) :
    (Except AuthError JwtClaims) × AuthDb :=
  match jwtVerify token with
  | none => (.error .invalidToken, st)
  | some decoded =>
    let tokenHash := sha256Hex token
    match st.sessions.find? (fun s => s.tokenHash == tokenHash) with
    | none => (.error .sessionExpired, st)
    | some session =>
      if session.expiresAt < now then (.error .sessionExpired, st)
      else
        let newSessions := st.sessions.map
          (fun s => if s.id == session.id then { s with lastUsedAt := now } else s)
        (.ok decoded, { st with sessions := newSessions })

/-- Model of `authService.validateToken(token)`: the `try` body wrapped in the
source's catch-all, which replaces every failure — including the internal
`'Session expired'` throw — by the single `'Invalid token'` error. -/
def validateToken (jwtVerify : String → Option JwtClaims)
    (st : AuthDb) (token : String) (now : Nat) :
    (Except AuthError JwtClaims) × AuthDb :=
  match validateTokenTry jwtVerify st token now with
  | (.ok decoded, st1) => (.ok decoded, st1)
  | (.error _, st1) => (.error .invalidToken, st1)

/-- Model of `authService.logout(token)`: delete the session row matching
`sha256(token)`, ignoring "already gone". -/
def logout (st : AuthDb) (token : String) : (Except AuthError Unit) × AuthDb :=
  let tokenHash := sha256Hex token
  (.ok (), { st with sessions := st.sessions.filter (fun s => !(s.tokenHash == tokenHash)) })

/-! ## `friendsService.sendFriendRequest` -/

/-- The `prisma.friendship.create` call, including the schema's
`@@unique([userId1, userId2])` constraint on the ordered pair. -/
def createFriendship (friendships : List Friendship)
    (fromUserId toUserId newId : String) :
    (Except FriendError Friendship) × List Friendship :=
  if friendships.any (fun f => f.userId1 == fromUserId && f.userId2 == toUserId) then
    (.error .uniqueViolation, friendships)
  else
    let friendship : Friendship := ⟨newId, fromUserId, toUserId, .PENDING⟩
    (.ok friendship, friendships ++ [friendship])

/-- Model of `friendsService.sendFriendRequest(fromUserId, toUserId)`:
reject self-requests; look up an existing row in either direction; throw for
`ACCEPTED` and `PENDING` statuses; otherwise create a new `PENDING` row. -/
def sendFriendRequest (friendships : List Friendship)
    (fromUserId toUserId newId : String) :
    (Except FriendError Friendship) × List Friendship :=
  if fromUserId == toUserId then (.error .selfRequest, friendships)
  else
    match friendships.find? (fun f =>
        (f.userId1 == fromUserId && f.userId2 == toUserId) ||
        (f.userId1 == toUserId && f.userId2 == fromUserId)) with
    | some existing =>
      if existing.status == .ACCEPTED then (.error .alreadyFriends, friendships)
      else if existing.status == .PENDING then (.error .requestPending, friendships)
      else createFriendship friendships fromUserId toUserId newId
    | none => createFriendship friendships fromUserId toUserId newId

/-! ## `messagesService` (`backend/src/services/uvasis.service.ts`, second
module) and `messagesController.getClassMessages` -/

/-- The content sanitisation of `messagesService.createMessage`, in source
order: escape `<`, escape `>`, then trim. -/
def sanitizeContent (content : String) : String :=
  jsTrim (jsReplaceAll (jsReplaceAll content '<' "&lt;") '>' "&gt;")

/-- Model of `messagesService.createMessage(userId, classId, content,
parentMessageId)`.  `newId` is the UUID of the created row, `now` its
`createdAt`. -/
def createMessage (st : MsgDb) (userId classId content : String)
    (parentMessageId : Option String) (newId : String) (now : Nat) :
    (Except MessageError ClassMessage) × MsgDb :=
  match st.userClasses.find? (fun uc => uc.userId == userId && uc.classId == classId) with
  | none => (.error .notEnrolled, st)
  | some _ =>
    let anonymousIdentifier := generateAnonymousId userId classId
    let sanitizedContent := sanitizeContent content
    if sanitizedContent.data.isEmpty || jsLength sanitizedContent > 1000 then
      (.error .invalidContent, st)
    else
      let message : ClassMessage :=
        ⟨newId, classId, userId, anonymousIdentifier, sanitizedContent,
         parentMessageId, now, 0, false⟩
      (.ok message, { st with classMessages := st.classMessages ++ [message] })

/-- Model of `messagesService.flagMessage(messageId, userId)`: find the row,
increment `flaggedCount` (returning the updated row), and if the new count
reaches 5 additionally set `hidden`.  `userId` is accepted and ignored, as in
the source — there is no per-user dedupe.  Row ids are the primary key, so
the id-keyed updates mirror Prisma's `update({ where: { id } })`. -/
def flagMessage (st : MsgDb) (messageId userId : String) :
    (Except MessageError ClassMessage) × MsgDb :=
  match st.classMessages.find? (fun m => m.id == messageId) with
  | none => (.error .notFound, st)
  | some message =>
    let updated := { message with flaggedCount := message.flaggedCount + 1 }
    let msgs1 := st.classMessages.map (fun m => if m.id == messageId then updated else m)
    if 5 ≤ updated.flaggedCount then
      let msgs2 := msgs1.map
        (fun m => if m.id == messageId then { m with hidden := true } else m)
      (.ok updated, { st with classMessages := msgs2 })
    else
      (.ok updated, { st with classMessages := msgs1 })

/-- Sequential repetition: `n` successive `flagMessage` calls on the same
message. -/
def flagTimes (n : Nat) (st : MsgDb) (messageId userId : String) : MsgDb :=
  match n with
  | 0 => st
  | Nat.succ k => (flagMessage (flagTimes k st messageId userId) messageId userId).2

/-- The pagination object returned by `messagesService.getClassMessages`. -/
structure Pagination where
  total : Nat
  limit : Nat
  offset : Nat
  hasMore : Bool
deriving DecidableEq, Repr

/-- The `include: { replies: { where: { hidden: false }, take: 5 } }` clause:
at most five non-hidden replies of a message. -/
def repliesOf (st : MsgDb) (messageId : String) : List ClassMessage :=
  (st.classMessages.filter
    (fun r => r.parentMessageId == some messageId && r.hidden == false)).take 5

/-- Model of `messagesService.getClassMessages(classId, limit, offset)`:
non-hidden messages of the class, ordered by `createdAt` descending (the
`orderBy` clause; realised by a sort), paged by `skip`/`take`, each with its
(capped) reply list; the pagination totals non-hidden messages of the
class. -/
def getClassMessages (st : MsgDb) (classId : String) (limit offset : Nat) :
    List (ClassMessage × List ClassMessage) × Pagination :=
  let matching := st.classMessages.filter
    (fun m => m.classId == classId && m.hidden == false)
  let sorted := List.insertionSort (fun a b => b.createdAt ≤ a.createdAt) matching
  let page := (sorted.drop offset).take limit
  let withReplies := page.map (fun m => (m, repliesOf st m.id))
  let total := matching.length
  (withReplies, ⟨total, limit, offset, decide (offset + withReplies.length < total)⟩)

/-- The shape of one message in `messagesController.getClassMessages`'s
response. -/
structure MessageView where
  id : String
  anonymousIdentifier : String
  content : String
  createdAt : Nat
  replyCount : Nat
  isOwnMessage : Bool
deriving DecidableEq, Repr

/-- Model of `messagesService.isUserEnrolledInClass`. -/
def isUserEnrolledInClass (st : MsgDb) (userId classId : String) : Bool :=
  (st.userClasses.find? (fun uc => uc.userId == userId && uc.classId == classId)).isSome

/-- The response mapping of `messagesController.getClassMessages` for one
message and its included replies: `replyCount` is the length of the (at most
five) included replies, `isOwnMessage` compares the owning user with the
caller. -/
def messageToView (userId : String) (p : ClassMessage × List ClassMessage) : MessageView :=
  ⟨p.1.id, p.1.anonymousIdentifier, p.1.content, p.1.createdAt,
   p.2.length, p.1.userId == userId⟩

/-- Model of `messagesController.getClassMessages`: the enrollment guard, the
service call, and the response mapping. -/
def getClassMessagesView (st : MsgDb) (userId classId : String) (limit offset : Nat) :
    Except MessageError (List MessageView × Pagination) :=
  if isUserEnrolledInClass st userId classId then
    let result := getClassMessages st classId limit offset
    .ok (result.1.map (messageToView userId), result.2)
  else .error .viewNotEnrolled

/-- Every `Session` field except the mutable `lastUsedAt`: the frame that an
authenticated-request refresh must preserve. -/
def sessionFrame (s : Session) : String × String × String × Nat × Nat :=
  (s.id, s.userId, s.tokenHash, s.expiresAt, s.createdAt)

/-! ## Concrete states used by the witnesses and counterexamples -/

/-- A user row. -/
def userEx : User := ⟨"u1", "bob@virginia.edu", false⟩

/-- A fresh, unused magic link for the raw token `"tok-1"`, expiring at
time 1000000. -/
def mlEx : MagicLink := ⟨"ml1", "u1", sha256Hex "tok-1", 1000000, false⟩

/-- An authentication store holding one user and one fresh magic link. -/
def authDbEx : AuthDb := ⟨[userEx], [mlEx], []⟩

/-- The external `jsonwebtoken` verifier of the examples: exactly the
credential `"jwt1"` carries a valid signature. -/
def jwtVerifyEx : String → Option JwtClaims :=
  fun t => if t == "jwt1" then some ⟨"u1", "bob@virginia.edu"⟩ else none

/-- The store after a successful `verifyMagicLink` minted the session for
`"jwt1"`. -/
def authDbLoggedIn : AuthDb := (verifyMagicLink authDbEx "tok-1" "jwt1" "s1" 500).2

/-- The store after `logout("jwt1")` deleted that session row. -/
def authDbLoggedOut : AuthDb := (logout authDbLoggedIn "jwt1").2

/-- A friendship row in state `REJECTED` for the unordered pair
`(alice, bob)`, requested by alice. -/
def rejFriendshipEx : Friendship := ⟨"f1", "alice", "bob", .REJECTED⟩

/-- A message row with no flags. -/
def msgEx : ClassMessage := ⟨"m1", "c1", "u1", "Anon_m", "hello", none, 10, 0, false⟩

/-- A message store: user `"u1"` enrolled in class `"c1"`, one message. -/
def msgDbEx : MsgDb := ⟨[⟨"u1", "c1"⟩], [msgEx]⟩

/-- A content string of 251 `<` characters: 251 characters before
sanitisation, 1004 after. -/
def angleContent : String := String.mk (List.replicate 251 '<')

/-- A message store for the listing examples: `alice` enrolled in `"c1"`,
one root message by `alice` and six non-hidden replies. -/
def msgDbRepliesEx : MsgDb :=
  ⟨[⟨"alice", "c1"⟩],
   [⟨"m1", "c1", "alice", "Anon_a", "root", none, 10, 0, false⟩,
    ⟨"r1", "c1", "bob", "Anon_b", "reply", some "m1", 11, 0, false⟩,
    ⟨"r2", "c1", "bob", "Anon_b", "reply", some "m1", 12, 0, false⟩,
    ⟨"r3", "c1", "bob", "Anon_b", "reply", some "m1", 13, 0, false⟩,
    ⟨"r4", "c1", "bob", "Anon_b", "reply", some "m1", 14, 0, false⟩,
    ⟨"r5", "c1", "bob", "Anon_b", "reply", some "m1", 15, 0, false⟩,
    ⟨"r6", "c1", "bob", "Anon_b", "reply", some "m1", 16, 0, false⟩]⟩

/-! ## Theorems -/

/-- C8: `generateAnonymousId(userId, classId)` equals `"Anon_"` followed by
the first 6 hex characters of `sha256(userId + ":" + classId)`, and, being a
pure function of its two arguments, is deterministic — repeated calls with
the same pair yield the identical string.  The last two conjuncts pin the
SHA-256 model to the FIPS 180-4 test vector and evaluate a concrete
identifier (cross-checked against `sha256sum` of `u1:c1`). -/
theorem c8_generateAnonymousId_spec :
    (∀ userId classId : String,
      generateAnonymousId userId classId
        = "Anon_" ++ jsTake (sha256Hex (userId ++ ":" ++ classId)) 6)
    ∧ (∀ userId classId : String,
      generateAnonymousId userId classId = generateAnonymousId userId classId)
    ∧ sha256Hex "abc" = "ba7816bf8f01cfea414140de5dae2223b00361a396177a9cb410ff61f20015ad"
    ∧ generateAnonymousId "u1" "c1" = "Anon_916bbd" :=
  ⟨fun _ _ => rfl, fun _ _ => rfl, by decide, by decide⟩

/-- C7: for every email that does not end with the institution suffix
`@virginia.edu`, `requestMagicLink(email)` fails with the validation error
and the store is returned unchanged — no `User` row and no `MagicLink` row is
created, since the guard precedes every database write. -/
theorem c7_requestMagicLink_rejects_nonInstitution
    (st : AuthDb) (email newUserId linkId token : String) (now : Nat)
    (h : jsEndsWith email "@virginia.edu" = false) :
    requestMagicLink st email newUserId linkId token now
      = (Except.error AuthError.invalidDomain, st) := by
  simp [requestMagicLink, h]

/-- Witness for C7 at the concrete email `bob@gmail.com`. -/
theorem c7_witness :
    jsEndsWith "bob@gmail.com" "@virginia.edu" = false
    ∧ requestMagicLink authDbEx "bob@gmail.com" "u9" "l9" "tok-9" 0
        = (Except.error AuthError.invalidDomain, authDbEx) :=
  ⟨by decide,
   c7_requestMagicLink_rejects_nonInstitution authDbEx "bob@gmail.com" "u9" "l9" "tok-9" 0
     (by decide)⟩

/-- C4 is violated by the code: with an existing `REJECTED` friendship row
between alice and bob, a new request in the reversed direction passes the
service's status check (which only rejects `ACCEPTED` and `PENDING`) and the
schema's ordered-pair unique constraint, creating a second row for the same
unordered pair — the store ends with two rows joining alice and bob. -/
theorem c4_sendFriendRequest_duplicate_unordered_pair :
    (sendFriendRequest [rejFriendshipEx] "bob" "alice" "f2").1
      = Except.ok (⟨"f2", "bob", "alice", FriendshipStatus.PENDING⟩ : Friendship)
    ∧ ((sendFriendRequest [rejFriendshipEx] "bob" "alice" "f2").2.filter
        (fun f => (f.userId1 == "alice" && f.userId2 == "bob")
          || (f.userId1 == "bob" && f.userId2 == "alice"))).length = 2 :=
  ⟨by decide, by decide⟩

/-- C9 is violated by the code: `verifyMagicLink` reads the link and later
updates it unconditionally, with an `await`ed database call (a yield point)
in between, so in the interleaving of two `verify(token)` requests where both
`findUnique` reads run before either write, both requests succeed and two
session rows are minted from the single-use token.  The last conjunct
contrasts the sequential execution, where the second call fails. -/
theorem c9_verify_race_both_succeed :
    (verifyTwoInterleaved authDbEx "tok-1" "jwt1" "s1" "jwt2" "s2" 500).1.isOk = true
    ∧ (verifyTwoInterleaved authDbEx "tok-1" "jwt1" "s1" "jwt2" "s2" 500).2.1.isOk = true
    ∧ (verifyTwoInterleaved authDbEx "tok-1" "jwt1" "s1" "jwt2" "s2" 500).2.2.sessions.length = 2
    ∧ (verifyMagicLink
        ((verifyMagicLink authDbEx "tok-1" "jwt1" "s1" 500).2) "tok-1" "jwt2" "s2" 500).1.isOk
        = false :=
  ⟨by decide, by decide, by decide, by decide⟩

/-- When a map does not change the value of the search predicate, searching
the mapped list finds the image of the original hit. -/
theorem find?_map_invariant {α : Type} (f : α → α) (p : α → Bool)
    (hf : ∀ x, p (f x) = p x) (l : List α) :
    (l.map f).find? p = (l.find? p).map f := by
  induction l with
  | nil => rfl
  | cons a l ih =>
    cases hpa : p a with
    | true =>
      rw [List.map_cons, List.find?_cons_of_pos _ (by rw [hf]; exact hpa),
        List.find?_cons_of_pos _ hpa, Option.map_some']
    | false =>
      rw [List.map_cons, List.find?_cons_of_neg _ (by simp [hf, hpa]),
        List.find?_cons_of_neg _ (by simp [hpa]), ih]

/-- C1: `verifyMagicLink(token)` fails with the collapsed `InvalidTokenError`
kind exactly when no `MagicLink` row matches `sha256(token)`, or the matching
row's `expiresAt` is before `now`, or its `used` flag is already set; and
after any successful verification, a second `verify` call with the same raw
token — at any later (or earlier) clock value — fails with
`InvalidTokenError`, so a raw token successfully verifies at most once in
sequential execution. -/
theorem c1_verifyMagicLink_at_most_once
    (st : AuthDb) (token jwtToken sessionId : String) (now : Nat) :
    ((∃ e, (verifyMagicLink st token jwtToken sessionId now).1 = Except.error e
        ∧ isInvalidTokenError e = true)
      ↔ (st.magicLinks.find? (fun l => l.tokenHash == sha256Hex token) = none
         ∨ ∃ l, st.magicLinks.find? (fun l => l.tokenHash == sha256Hex token) = some l
             ∧ (l.expiresAt < now ∨ l.used = true)))
    ∧ ((verifyMagicLink st token jwtToken sessionId now).1.isOk = true →
        ∀ jwt2 sid2 now2,
          ∃ e, (verifyMagicLink (verifyMagicLink st token jwtToken sessionId now).2
                  token jwt2 sid2 now2).1
              = Except.error e ∧ isInvalidTokenError e = true) := by
  constructor
  · cases hfind : st.magicLinks.find? (fun l => l.tokenHash == sha256Hex token) with
    | none =>
      simp [verifyMagicLink, verifyMagicLinkRead, hfind, isInvalidTokenError]
    | some l =>
      by_cases hexp : l.expiresAt < now
      · simp [verifyMagicLink, verifyMagicLinkRead, hfind, hexp, isInvalidTokenError]
      · by_cases hused : l.used
        · simp [verifyMagicLink, verifyMagicLinkRead, hfind, hexp, hused, isInvalidTokenError]
        · simp [verifyMagicLink, verifyMagicLinkRead, hfind, hexp, hused, isInvalidTokenError]
  · intro hok jwt2 sid2 now2
    cases hread : verifyMagicLinkRead st token now with
    | error e => simp [verifyMagicLink, hread, Except.isOk, Except.toBool] at hok
    | ok link =>
      have hfields : st.magicLinks.find? (fun l => l.tokenHash == sha256Hex token) = some link
          ∧ ¬ link.expiresAt < now ∧ link.used = false := by
        cases hfind : st.magicLinks.find? (fun l => l.tokenHash == sha256Hex token) with
        | none => simp only [verifyMagicLinkRead, hfind] at hread; cases hread
        | some l =>
          simp only [verifyMagicLinkRead, hfind] at hread
          by_cases hexp : l.expiresAt < now
          · simp [hexp] at hread
          · by_cases hused : l.used
            · simp [hexp, hused] at hread
            · simp [hexp, hused] at hread
              subst hread
              exact ⟨rfl, hexp, by simpa using hused⟩
      obtain ⟨hfind, hexp, hused⟩ := hfields
      have hpost : (verifyMagicLink st token jwtToken sessionId now).2
          = verifyMagicLinkWrite st link jwtToken sessionId now := by
        simp [verifyMagicLink, hread]
      rw [hpost]
      have hfind2 : (verifyMagicLinkWrite st link jwtToken sessionId now).magicLinks.find?
          (fun l => l.tokenHash == sha256Hex token)
          = some { link with used := true } := by
        show (st.magicLinks.map _).find? _ = _
        rw [find?_map_invariant _ _ (fun x => by
          by_cases hx : x.id == link.id <;> simp [hx]) _, hfind, Option.map_some']
        simp
      by_cases hexp2 : link.expiresAt < now2
      · exact ⟨AuthError.linkExpired, by simp [verifyMagicLink, verifyMagicLinkRead, hfind2, hexp2], by decide⟩
      · exact ⟨AuthError.linkUsed, by simp [verifyMagicLink, verifyMagicLinkRead, hfind2, hexp2], by decide⟩

/-- Witness for C1: a concrete second `verify` on the token consumed at time
500 fails with an `InvalidTokenError`. -/
theorem c1_witness :
    ∃ e, (verifyMagicLink (verifyMagicLink authDbEx "tok-1" "jwt1" "s1" 500).2
            "tok-1" "jwt2" "s2" 600).1
        = Except.error e ∧ isInvalidTokenError e = true :=
  (c1_verifyMagicLink_at_most_once authDbEx "tok-1" "jwt1" "s1" 500).2 (by decide) "jwt2" "s2" 600

/-- C3 is falsified as stated: after a successful login and a logout, the
credential `"jwt1"` still carries a valid signature and no live session row
matches its hash, yet `validateToken` fails with the generic invalid-token
error — not with the session-expired kind — and its result is identical to
the invalid-signature case (`"garbage"`), so the two causes are not
externally distinguishable. -/
theorem c3_counterexample :
    jwtVerifyEx "jwt1" = some ⟨"u1", "bob@virginia.edu"⟩
    ∧ authDbLoggedOut.sessions.find? (fun s => s.tokenHash == sha256Hex "jwt1") = none
    ∧ (validateToken jwtVerifyEx authDbLoggedOut "jwt1" 600).1
        = Except.error AuthError.invalidToken
    ∧ (validateToken jwtVerifyEx authDbLoggedOut "jwt1" 600).1
        ≠ Except.error AuthError.sessionExpired
    ∧ jwtVerifyEx "garbage" = none
    ∧ (validateToken jwtVerifyEx authDbLoggedOut "garbage" 600).1
        = Except.error AuthError.invalidToken :=
  ⟨rfl, by decide, by decide, by decide, rfl, by decide⟩

/-- C3 (amended): when the signature is valid but no live `Session` row
matches `sha256(credential)` — which is exactly the state `logout` leaves, as
the last conjunct shows — `validateToken` does fail, but the internal
session-expired cause is swallowed by the function's catch-all and replaced
by the same `'Invalid token'` error that an invalid signature produces. -/
theorem c3_validate_after_logout (jwtVerify : String → Option JwtClaims)
    (st : AuthDb) (token : String) (now : Nat) (decoded : JwtClaims)
    (hsig : jwtVerify token = some decoded)
    (hnone : st.sessions.find? (fun s => s.tokenHash == sha256Hex token) = none) :
    (validateTokenTry jwtVerify st token now).1 = Except.error AuthError.sessionExpired
    ∧ (validateToken jwtVerify st token now).1 = Except.error AuthError.invalidToken
    ∧ (∀ tok2, jwtVerify tok2 = none →
        (validateToken jwtVerify st tok2 now).1 = Except.error AuthError.invalidToken)
    ∧ (∀ (st0 : AuthDb) (tok0 : String),
        (logout st0 tok0).2.sessions.find? (fun s => s.tokenHash == sha256Hex tok0) = none) := by
  have htry : validateTokenTry jwtVerify st token now = (Except.error AuthError.sessionExpired, st) := by
    simp only [validateTokenTry, hsig, hnone]
  refine ⟨by rw [htry], by simp [validateToken, htry], ?_, ?_⟩
  · intro tok2 h2
    simp [validateToken, validateTokenTry, h2]
  · intro st0 tok0
    rw [List.find?_eq_none]
    intro s hs
    have := List.of_mem_filter hs
    simpa using this

/-- Witness for the amended C3 at the logged-out concrete store. -/
theorem c3_witness :
    (validateTokenTry jwtVerifyEx authDbLoggedOut "jwt1" 700).1
        = Except.error AuthError.sessionExpired
    ∧ (validateToken jwtVerifyEx authDbLoggedOut "jwt1" 700).1
        = Except.error AuthError.invalidToken
    ∧ (∀ tok2, jwtVerifyEx tok2 = none →
        (validateToken jwtVerifyEx authDbLoggedOut tok2 700).1
          = Except.error AuthError.invalidToken)
    ∧ (∀ (st0 : AuthDb) (tok0 : String),
        (logout st0 tok0).2.sessions.find? (fun s => s.tokenHash == sha256Hex tok0) = none) :=
  c3_validate_after_logout jwtVerifyEx authDbLoggedOut "jwt1" 700
    ⟨"u1", "bob@virginia.edu"⟩ rfl (by decide)

/-- C10: on every successful `validateToken`, the users and magic links are
untouched and every session row keeps its `id`, `userId`, `tokenHash`,
`expiresAt` and `createdAt` — only `lastUsedAt` may change; and every session
row `verifyMagicLink` creates has `expiresAt` exactly 7 days
(604800000 ms) after its `createdAt`, so a session expires exactly 7 days
after creation no matter how often it is validated (no sliding expiration). -/
theorem c10_validateToken_frame (jwtVerify : String → Option JwtClaims)
    (st : AuthDb) (token : String) (now : Nat)
    (hok : (validateToken jwtVerify st token now).1.isOk = true) :
    ((validateToken jwtVerify st token now).2.users = st.users
      ∧ (validateToken jwtVerify st token now).2.magicLinks = st.magicLinks
      ∧ (validateToken jwtVerify st token now).2.sessions.map sessionFrame
          = st.sessions.map sessionFrame)
    ∧ ∀ (st0 : AuthDb) (link : MagicLink) (jwt sid : String) (now0 : Nat),
        ∃ snew : Session,
          (verifyMagicLinkWrite st0 link jwt sid now0).sessions = st0.sessions ++ [snew]
          ∧ snew.expiresAt = snew.createdAt + 604800000 ∧ snew.createdAt = now0 := by
  constructor
  · cases hjwt : jwtVerify token with
    | none => simp [validateToken, validateTokenTry, hjwt, Except.isOk, Except.toBool] at hok
    | some decoded =>
      cases hfind : st.sessions.find? (fun s => s.tokenHash == sha256Hex token) with
      | none =>
        simp [validateToken, validateTokenTry, hjwt, hfind, Except.isOk, Except.toBool] at hok
      | some session =>
        by_cases hexp : session.expiresAt < now
        · simp [validateToken, validateTokenTry, hjwt, hfind, hexp, Except.isOk, Except.toBool] at hok
        · have hval : (validateToken jwtVerify st token now).2
              = { st with sessions := st.sessions.map (fun s => if s.id == session.id then { s with lastUsedAt := now } else s) } := by
            simp [validateToken, validateTokenTry, hjwt, hfind, hexp]
          rw [hval]
          refine ⟨rfl, rfl, ?_⟩
          rw [List.map_map]
          exact List.map_congr_left (fun s _ => by
            simp only [Function.comp_apply]
            split <;> rfl)
  · intro st0 link jwt sid now0
    exact ⟨⟨sid, link.userId, sha256Hex jwt, now0 + 604800000, now0, now0⟩, rfl, rfl, rfl⟩

/-- Witness for C10 at a concrete successful validation. -/
theorem c10_witness :
    ((validateToken jwtVerifyEx authDbLoggedIn "jwt1" 600).2.users = authDbLoggedIn.users
      ∧ (validateToken jwtVerifyEx authDbLoggedIn "jwt1" 600).2.magicLinks = authDbLoggedIn.magicLinks
      ∧ (validateToken jwtVerifyEx authDbLoggedIn "jwt1" 600).2.sessions.map sessionFrame
          = authDbLoggedIn.sessions.map sessionFrame)
    ∧ ∀ (st0 : AuthDb) (link : MagicLink) (jwt sid : String) (now0 : Nat),
        ∃ snew : Session,
          (verifyMagicLinkWrite st0 link jwt sid now0).sessions = st0.sessions ++ [snew]
          ∧ snew.expiresAt = snew.createdAt + 604800000 ∧ snew.createdAt = now0 :=
  c10_validateToken_frame jwtVerifyEx authDbLoggedIn "jwt1" 600 (by decide)

/-- One `flagMessage` call on a present message returns the row with
`flaggedCount` incremented by exactly 1, leaves enrollments unchanged, and
stores the incremented row, additionally hidden when the new count reaches
5. -/
theorem flagMessage_step (st : MsgDb) (messageId userId : String) (m : ClassMessage)
    (h : st.classMessages.find? (fun x => x.id == messageId) = some m) :
    (flagMessage st messageId userId).1 = Except.ok { m with flaggedCount := m.flaggedCount + 1 }
    ∧ (flagMessage st messageId userId).2.userClasses = st.userClasses
    ∧ (flagMessage st messageId userId).2.classMessages.find? (fun x => x.id == messageId)
      = some { m with flaggedCount := m.flaggedCount + 1, hidden := if 5 ≤ m.flaggedCount + 1 then true else m.hidden } := by
  have hid : (m.id == messageId) = true := by simpa using List.find?_some h
  have hid2 : m.id = messageId := by simpa using hid
  by_cases h5 : 5 ≤ m.flaggedCount + 1
  · have heval : flagMessage st messageId userId = (Except.ok { m with flaggedCount := m.flaggedCount + 1 }, { st with classMessages := (st.classMessages.map (fun x => if x.id == messageId then { m with flaggedCount := m.flaggedCount + 1 } else x)).map (fun x => if x.id == messageId then { x with hidden := true } else x) }) := by
      simp only [flagMessage, h, h5, if_pos]
    refine ⟨by rw [heval], by rw [heval], ?_⟩
    rw [heval]
    show ((st.classMessages.map _).map _).find? _ = _
    rw [List.map_map]
    rw [find?_map_invariant _ _ (fun x => by
      by_cases hx : x.id == messageId <;> simp [Function.comp, hx, hid]) _, h]
    simp [Function.comp, hid2, h5]
  · have heval : flagMessage st messageId userId = (Except.ok { m with flaggedCount := m.flaggedCount + 1 }, { st with classMessages := st.classMessages.map (fun x => if x.id == messageId then { m with flaggedCount := m.flaggedCount + 1 } else x) }) := by
      simp only [flagMessage, h, h5, if_neg, not_false_iff]
    refine ⟨by rw [heval], by rw [heval], ?_⟩
    rw [heval]
    show (st.classMessages.map _).find? _ = _
    rw [find?_map_invariant _ _ (fun x => by
      by_cases hx : x.id == messageId <;> simp [hx, hid]) _, h]
    simp [hid2, h5]

/-- After `n` sequential flags of a message that started with
`flaggedCount = 0` and `hidden = false`, the stored row has `flaggedCount = n`
and is hidden exactly when `n ≥ 5`. -/
theorem flagTimes_find (st : MsgDb) (messageId userId : String) (m : ClassMessage)
    (h : st.classMessages.find? (fun x => x.id == messageId) = some m)
    (hc : m.flaggedCount = 0) (hh : m.hidden = false) :
    ∀ n, ∃ mn, (flagTimes n st messageId userId).classMessages.find? (fun x => x.id == messageId)
        = some mn ∧ mn.flaggedCount = n ∧ mn.hidden = decide (5 ≤ n) := by
  intro n
  induction n with
  | zero => exact ⟨m, h, hc, by rw [hh]; decide⟩
  | succ k ih =>
    obtain ⟨mk, hfind, hfc, hhid⟩ := ih
    refine ⟨_, (flagMessage_step (flagTimes k st messageId userId) messageId userId mk hfind).2.2,
      by rw [hfc], ?_⟩
    show (if 5 ≤ mk.flaggedCount + 1 then true else mk.hidden) = decide (5 ≤ k + 1)
    rw [hfc, hhid]
    by_cases h5 : 5 ≤ k + 1
    · rw [if_pos h5, decide_eq_true h5]
    · have h5k : ¬ 5 ≤ k := fun hk => h5 (Nat.le_succ_of_le hk)
      rw [if_neg h5, decide_eq_false h5, decide_eq_false h5k]

/-- C5: `flagMessage` fails with `NotFoundError` when the message does not
exist; on an existing message each call increments `flaggedCount` by exactly
1 (the caller's identity is never consulted, so the same user counts every
time); and from `flaggedCount = 0, hidden = false`, five calls leave the
message hidden while four calls leave it visible. -/
theorem c5_flagMessage_threshold (st : MsgDb) (messageId userId : String) :
    (st.classMessages.find? (fun x => x.id == messageId) = none →
      flagMessage st messageId userId = (Except.error MessageError.notFound, st))
    ∧ (∀ m, st.classMessages.find? (fun x => x.id == messageId) = some m →
        (flagMessage st messageId userId).1
          = Except.ok { m with flaggedCount := m.flaggedCount + 1 })
    ∧ (∀ m, st.classMessages.find? (fun x => x.id == messageId) = some m →
        m.flaggedCount = 0 → m.hidden = false →
        (∃ m5, (flagTimes 5 st messageId userId).classMessages.find? (fun x => x.id == messageId)
            = some m5 ∧ m5.flaggedCount = 5 ∧ m5.hidden = true)
        ∧ (∃ m4, (flagTimes 4 st messageId userId).classMessages.find? (fun x => x.id == messageId)
            = some m4 ∧ m4.flaggedCount = 4 ∧ m4.hidden = false)) := by
  refine ⟨fun hnone => by simp [flagMessage, hnone], ?_, ?_⟩
  · intro m hm
    exact (flagMessage_step st messageId userId m hm).1
  · intro m hm hc hh
    constructor
    · obtain ⟨m5, hf, hfc, hhid⟩ := flagTimes_find st messageId userId m hm hc hh 5
      exact ⟨m5, hf, hfc, by rw [hhid]; decide⟩
    · obtain ⟨m4, hf, hfc, hhid⟩ := flagTimes_find st messageId userId m hm hc hh 4
      exact ⟨m4, hf, hfc, by rw [hhid]; decide⟩

/-- Witness for C5 on a concrete store: five flags hide the message, four do
not. -/
theorem c5_witness :
    (∃ m5, (flagTimes 5 msgDbEx "m1" "u1").classMessages.find? (fun x => x.id == "m1")
        = some m5 ∧ m5.flaggedCount = 5 ∧ m5.hidden = true)
    ∧ (∃ m4, (flagTimes 4 msgDbEx "m1" "u1").classMessages.find? (fun x => x.id == "m1")
        = some m4 ∧ m4.flaggedCount = 4 ∧ m4.hidden = false) :=
  (c5_flagMessage_threshold msgDbEx "m1" "u1").2.2 msgEx (by decide) rfl rfl

set_option maxRecDepth 100000 in
/-- C2 is falsified as stated: a content of 251 `<` characters is non-empty
after trimming and well within 1000 characters, yet `createMessage` rejects
it with the validation error (and stores nothing), because the source escapes
`<` and `>` to 4-character entities before checking the length — the escaped
content has 1004 characters. -/
theorem c2_counterexample :
    jsTrim angleContent ≠ ""
    ∧ jsLength (jsTrim angleContent) ≤ 1000
    ∧ (createMessage msgDbEx "u1" "c1" angleContent none "m9" 100).1
        = Except.error MessageError.invalidContent
    ∧ (createMessage msgDbEx "u1" "c1" angleContent none "m9" 100).2 = msgDbEx :=
  ⟨by decide, by decide, by decide, by decide⟩

/-- C2 (amended): for an enrolled caller, `createMessage` escapes `<` and `>`
(to `&lt;` and `&gt;`), then trims, and fails with `ValidationError` exactly
when that sanitised content is empty or longer than 1000 characters — the
length bound applies to the escaped content, not the raw input; otherwise it
stores exactly the sanitised content as a fresh visible message appended to
the store. -/
theorem c2_createMessage_content (st : MsgDb) (userId classId content : String)
    (parentMessageId : Option String) (newId : String) (now : Nat)
    (henr : isUserEnrolledInClass st userId classId = true) :
    ((createMessage st userId classId content parentMessageId newId now).1
        = Except.error MessageError.invalidContent
      ↔ (sanitizeContent content).data = [] ∨ 1000 < jsLength (sanitizeContent content))
    ∧ (∀ msg, (createMessage st userId classId content parentMessageId newId now).1
          = Except.ok msg →
        msg.content = sanitizeContent content
        ∧ msg.flaggedCount = 0 ∧ msg.hidden = false
        ∧ (createMessage st userId classId content parentMessageId newId now).2.classMessages
            = st.classMessages ++ [msg]) := by
  rw [isUserEnrolledInClass, Option.isSome_iff_exists] at henr
  obtain ⟨uc, huc⟩ := henr
  by_cases hbad : (sanitizeContent content).data.isEmpty
      || decide (jsLength (sanitizeContent content) > 1000)
  · have heval : createMessage st userId classId content parentMessageId newId now
        = (Except.error MessageError.invalidContent, st) := by
      simp only [createMessage, huc, hbad, if_pos]
    constructor
    · rw [heval]
      simp only [true_iff]
      rcases Bool.or_eq_true_iff.mp hbad with hb | hb
      · exact Or.inl (List.isEmpty_iff.mp hb)
      · exact Or.inr (by simpa using hb)
    · intro msg hmsg
      rw [heval] at hmsg
      cases hmsg
  · have heval : createMessage st userId classId content parentMessageId newId now
        = (Except.ok (⟨newId, classId, userId, generateAnonymousId userId classId,
            sanitizeContent content, parentMessageId, now, 0, false⟩ : ClassMessage),
           { st with classMessages := st.classMessages ++ [⟨newId, classId, userId, generateAnonymousId userId classId, sanitizeContent content, parentMessageId, now, 0, false⟩] }) := by
      simp [createMessage, huc, hbad]
    constructor
    · rw [heval]
      simp only [Bool.or_eq_true, not_or, Bool.not_eq_true] at hbad
      constructor
      · intro hcon; simp at hcon
      · intro hcon
        exfalso
        rcases hcon with hdata | hlen
        · exact absurd (List.isEmpty_iff.mpr hdata) (by simp [hbad.1])
        · exact absurd hlen (of_decide_eq_false hbad.2)
    · intro msg hmsg
      rw [heval] at hmsg
      cases hmsg
      exact ⟨rfl, rfl, rfl, by rw [heval]⟩

/-- Witness for the amended C2: a concrete post by an enrolled user. -/
theorem c2_witness :
    ((createMessage msgDbEx "u1" "c1" "hi there" none "m9" 100).1
        = Except.error MessageError.invalidContent
      ↔ (sanitizeContent "hi there").data = [] ∨ 1000 < jsLength (sanitizeContent "hi there"))
    ∧ (∀ msg, (createMessage msgDbEx "u1" "c1" "hi there" none "m9" 100).1
          = Except.ok msg →
        msg.content = sanitizeContent "hi there"
        ∧ msg.flaggedCount = 0 ∧ msg.hidden = false
        ∧ (createMessage msgDbEx "u1" "c1" "hi there" none "m9" 100).2.classMessages
            = msgDbEx.classMessages ++ [msg]) :=
  c2_createMessage_content msgDbEx "u1" "c1" "hi there" none "m9" 100 (by decide)

/-- C6 is falsified as stated: on a store where the message `m1` has six
non-hidden replies, the listing reports `replyCount = 5` — the service loads
at most five replies (`take: 5`) and the controller reports that list's
length, so the annotation is not the number of non-hidden replies. -/
theorem c6_counterexample :
    (msgDbRepliesEx.classMessages.filter
        (fun r => r.parentMessageId == some "m1" && r.hidden == false)).length = 6
    ∧ (getClassMessagesView msgDbRepliesEx "alice" "c1" 50 0).toOption.bind
        (fun r => (r.1.find? (fun v => v.id == "m1")).map (fun v => v.replyCount)) = some 5 :=
  ⟨by decide, by decide⟩

/-- C6 (amended): every message the listing returns is non-hidden and belongs
to the requested class, the list is ordered newest first (`createdAt`
descending), and each message's `replyCount` equals the number of its
non-hidden replies capped at 5; for an enrolled caller the controller
returns exactly this mapped list. -/
theorem c6_getClassMessages_spec (st : MsgDb) (userId classId : String) (limit offset : Nat) :
    (∀ v ∈ (getClassMessages st classId limit offset).1.map (messageToView userId),
      ∃ m, m ∈ st.classMessages ∧ m.hidden = false ∧ m.classId = classId
        ∧ v.id = m.id ∧ v.createdAt = m.createdAt
        ∧ v.replyCount = min 5 ((st.classMessages.filter
            (fun r => r.parentMessageId == some m.id && r.hidden == false)).length))
    ∧ ((getClassMessages st classId limit offset).1.map (messageToView userId)).Pairwise
        (fun a b => b.createdAt ≤ a.createdAt)
    ∧ (isUserEnrolledInClass st userId classId = true →
        getClassMessagesView st userId classId limit offset
          = Except.ok ((getClassMessages st classId limit offset).1.map (messageToView userId),
              (getClassMessages st classId limit offset).2)) := by
  haveI htot : IsTotal ClassMessage (fun a b => b.createdAt ≤ a.createdAt) :=
    ⟨fun a b => Nat.le_total b.createdAt a.createdAt⟩
  haveI htrans : IsTrans ClassMessage (fun a b => b.createdAt ≤ a.createdAt) :=
    ⟨fun _ _ _ hab hbc => Nat.le_trans hbc hab⟩
  refine ⟨?_, ?_, ?_⟩
  · intro v hv
    rw [getClassMessages, List.map_map] at hv
    obtain ⟨m, hmpage, hvm⟩ := List.mem_map.mp hv
    have hmsorted : m ∈ List.insertionSort (fun a b => b.createdAt ≤ a.createdAt)
        (st.classMessages.filter (fun m => m.classId == classId && m.hidden == false)) :=
      List.mem_of_mem_drop (List.mem_of_mem_take hmpage)
    have hmmatching := (List.perm_insertionSort
      (fun a b : ClassMessage => b.createdAt ≤ a.createdAt) _).mem_iff.mp hmsorted
    obtain ⟨hmem, hpred⟩ := List.mem_filter.mp hmmatching
    rw [Bool.and_eq_true] at hpred
    refine ⟨m, hmem, by simpa using hpred.2, by simpa using hpred.1, ?_, ?_, ?_⟩
    · rw [← hvm]; rfl
    · rw [← hvm]; rfl
    · rw [← hvm]
      show (repliesOf st m.id).length = _
      rw [repliesOf, List.length_take, inf_eq_min]
  · rw [getClassMessages, List.map_map]
    rw [List.pairwise_map]
    have hsorted : List.Pairwise (fun a b : ClassMessage => b.createdAt ≤ a.createdAt)
        (List.insertionSort (fun a b => b.createdAt ≤ a.createdAt)
          (st.classMessages.filter (fun m => m.classId == classId && m.hidden == false))) :=
      List.sorted_insertionSort _ _
    have hpage : List.Pairwise (fun a b : ClassMessage => b.createdAt ≤ a.createdAt)
        (((List.insertionSort (fun a b => b.createdAt ≤ a.createdAt)
          (st.classMessages.filter (fun m => m.classId == classId && m.hidden == false))).drop offset).take limit) :=
      List.Pairwise.sublist ((List.take_sublist _ _).trans (List.drop_sublist _ _)) hsorted
    exact hpage.imp (fun h => h)
  · intro henr
    simp [getClassMessagesView, henr]

/-- Witness for the amended C6 at the concrete replies store. -/
theorem c6_witness :
    getClassMessagesView msgDbRepliesEx "alice" "c1" 50 0
      = Except.ok ((getClassMessages msgDbRepliesEx "c1" 50 0).1.map (messageToView "alice"),
          (getClassMessages msgDbRepliesEx "c1" 50 0).2) :=
  (c6_getClassMessages_spec msgDbRepliesEx "alice" "c1" 50 0).2.2 (by decide)
